import Mathlib

/-!
Verification development for the multi-cloud deployment portal
(vanilla-JS frontend under `frontend/js`, React frontend under `frontend-v3`).

The JavaScript source is shallowly embedded: every function modelled here is
translated from the corresponding source function, with JS-specific behaviour
(string truthiness, `||` defaulting, `trim`, DOM `<select>` semantics) made
explicit.  Machine-checked theorems about these definitions settle the
testable properties stated in the specification.
-/

namespace Portal

/-! ## JavaScript string primitives

JS strings are modelled as Lean `String`s.  `trim`, truthiness and the
`||`-defaulting idiom are given explicit executable definitions over the
character list of the string, so that theorems and concrete evaluations
both reduce.
-/

/-- ASCII whitespace removed by JavaScript `String.prototype.trim`
(the source only ever feeds it keyboard input, so the exotic Unicode
whitespace classes are irrelevant here). -/
def isJsWhitespace (c : Char) : Bool :=
  c == ' ' || c == '\t' || c == '\n' || c == '\r'

/-- JavaScript `s.trim()`: strip leading and trailing whitespace. -/
def jsTrim (s : String) : String :=
  (((s.data.dropWhile isJsWhitespace).reverse.dropWhile isJsWhitespace).reverse).asString

/-- JavaScript truthiness of a string: every string except `""` is truthy. -/
def jsTruthy (s : String) : Bool := s != ""

/-- Truthiness of a nullable string (`null`/`undefined` modelled as `none`). -/
def jsTruthyOpt : Option String → Bool
  | none => false
  | some s => jsTruthy s

/-- JavaScript `o || d` for a possibly-absent string `o`:
the default is taken when `o` is `null`/`undefined` or the empty string. -/
def jsOrStr (o : Option String) (d : String) : String :=
  match o with
  | none => d
  | some s => if s = "" then d else s

/-- `pat.isPrefixOf hay` over character lists. -/
def charsPrefixOf : List Char → List Char → Bool
  | [], _ => true
  | _ :: _, [] => false
  | a :: as, b :: bs => a == b && charsPrefixOf as bs

/-- Does `pat` occur as a contiguous sublist of `hay`? -/
def charsContains (pat : List Char) : List Char → Bool
  | [] => pat.isEmpty
  | c :: rest => charsPrefixOf pat (c :: rest) || charsContains pat rest

/-- JavaScript `hay.includes(pat)` (substring containment). -/
def jsIncludes (hay pat : String) : Bool :=
  charsContains pat.data hay.data

/-! ## Resource-group name validation (legacy frontend, `validateDeploymentParameters`
and `validateResourceGroupName`)

The source validates the *trimmed* resource-group name against the regex
`/^[a-zA-Z0-9._-]+$/` and the length bound 90.
-/

/-- A character accepted by the resource-group regex class `[a-zA-Z0-9._-]`. -/
def isAllowedRGChar (c : Char) : Bool :=
  (c ≥ 'a' && c ≤ 'z') || (c ≥ 'A' && c ≤ 'Z') || (c ≥ '0' && c ≤ '9') ||
  c == '.' || c == '_' || c == '-'

/-- The test `rgNamePattern.test(s)` for `rgNamePattern = /^[a-zA-Z0-9._-]+$/`:
at least one character, all from the class. -/
def rgNamePatternTest (s : String) : Bool :=
  !s.data.isEmpty && s.data.all isAllowedRGChar

/-- JS `s.length` (for the ASCII strings involved, the number of characters). -/
def jsLength (s : String) : Nat := s.data.length

/-- Parameters collected by `collectParameters` before a deployment: the three
top-level fields plus the remaining template-specific parameters.  Missing DOM
fields collect as `""` (the source applies `|| ''`). -/
structure CollectedParams where
  resourceGroupName : String := ""
  location : String := ""
  subscription : String := ""
  rest : List (String × String) := []
deriving DecidableEq

def msgSelectTemplate : String := "Please select a template first"
def msgRGRequired : String := "Resource Group Name is required"
def msgLocationRequired : String := "Location is required"
def msgRGCharset : String :=
  "Resource Group Name can only contain letters, numbers, periods, underscores, and hyphens"
def msgRGTooLong : String := "Resource Group Name must be 90 characters or less"

/-- `validateDeploymentParameters(parameters)` from the legacy frontend:
collects the error messages in source order.  `selectedTemplate` is the global
template selection (`none` models the initial `null`). -/
def validateDeploymentParameters (selectedTemplate : Option String)
    (parameters : CollectedParams) : List String :=
  let resourceGroupName := parameters.resourceGroupName
  let location := parameters.location
  (if jsTruthyOpt selectedTemplate then [] else [msgSelectTemplate]) ++
  (if jsTruthy (jsTrim resourceGroupName) then [] else [msgRGRequired]) ++
  (if jsTruthy (jsTrim location) then [] else [msgLocationRequired]) ++
  (if jsTruthy (jsTrim resourceGroupName) then
    (if rgNamePatternTest (jsTrim resourceGroupName) then [] else [msgRGCharset]) ++
    (if jsLength (jsTrim resourceGroupName) > 90 then [msgRGTooLong] else [])
  else [])

/-- Outcome of the per-field validator `validateResourceGroupName(field)`:
either the field is marked valid, or invalid with the message shown. -/
inductive FieldValidation where
  | valid : FieldValidation
  | invalid : String → FieldValidation
deriving DecidableEq

/-- `validateResourceGroupName(field)` from the legacy frontend
(real-time validation of the resource-group input). -/
def validateResourceGroupName (fieldValue : String) : FieldValidation :=
  let value := jsTrim fieldValue
  if value = "" then .invalid msgRGRequired
  else if !rgNamePatternTest value then
    .invalid "Only letters, numbers, periods, underscores, and hyphens allowed"
  else if jsLength value > 90 then .invalid "Must be 90 characters or less"
  else .valid

/-- Does an error list contain one of the three resource-group errors emitted
by `validateDeploymentParameters`? -/
def hasResourceGroupError (errors : List String) : Bool :=
  errors.any (fun e => e == msgRGRequired || e == msgRGCharset || e == msgRGTooLong)

/-- The condition under which the code accepts a resource-group name:
the trimmed value matches `[a-zA-Z0-9._-]+` and is at most 90 characters. -/
def rgNameAccepted (s : String) : Bool :=
  rgNamePatternTest (jsTrim s) && jsLength (jsTrim s) ≤ 90

/-! ## `deployTemplate` control flow (legacy frontend)

After validation the source builds the `deploymentData` payload and issues
`fetch('/deploy', ...)`; when validation errors exist it shows them and
returns before any network request.
-/

/-- The JSON body sent to `POST /deploy` by the legacy frontend. -/
structure DeploymentData where
  template_name : Option String
  subscription_id : String
  resource_group : String
  location : String
  parameters : List (String × String)
deriving DecidableEq

/-- Observable outcome of a `deployTemplate()` call: either it stops on
validation errors (before any network request), or it issues the fetch with
the given payload. -/
inductive DeployStep where
  | validationError : List String → DeployStep
  | fetchDeploy : DeploymentData → DeployStep
deriving DecidableEq

/-- `deployTemplate()` up to its first network request, as a function of the
collected parameters and the selected template. -/
def deployTemplate (selectedTemplate : Option String)
    (parameters : CollectedParams) : DeployStep :=
  let validationErrors := validateDeploymentParameters selectedTemplate parameters
  if validationErrors.length > 0 then
    .validationError validationErrors
  else
    .fetchDeploy
      { template_name := selectedTemplate
        subscription_id := parameters.subscription
        resource_group := parameters.resourceGroupName
        location := parameters.location
        parameters := parameters.rest }


/-! ## Theorems: resource-group name validation (claims C1, C2) -/

/-- Helper: the resource-group errors of `validateDeploymentParameters` occur
exactly when the trimmed name fails the charset-and-length acceptance test. -/
theorem rg_validation_accepts_trimmed (st : Option String) (p : CollectedParams) :
    hasResourceGroupError (validateDeploymentParameters st p)
      = !rgNameAccepted p.resourceGroupName := by
  unfold hasResourceGroupError validateDeploymentParameters rgNameAccepted
  cases h2 : jsTruthy (jsTrim p.resourceGroupName)
  case false =>
    have h4 : rgNamePatternTest (jsTrim p.resourceGroupName) = false := by
      have h0 : jsTrim p.resourceGroupName = "" := by
        unfold jsTruthy at h2; simpa using h2
      rw [h0]; rfl
    cases h1 : jsTruthyOpt st <;> cases h3 : jsTruthy (jsTrim p.location) <;>
      simp +decide [h1, h2, h3, h4]
  case true =>
    by_cases h5 : jsLength (jsTrim p.resourceGroupName) > 90
    · have h6 : ¬ jsLength (jsTrim p.resourceGroupName) ≤ 90 := Nat.not_le.mpr h5
      cases h1 : jsTruthyOpt st <;> cases h3 : jsTruthy (jsTrim p.location) <;>
        cases h4 : rgNamePatternTest (jsTrim p.resourceGroupName) <;>
          simp +decide [h1, h2, h3, h4, h5, h6]
    · have h6 : jsLength (jsTrim p.resourceGroupName) ≤ 90 := Nat.not_lt.mp h5
      cases h1 : jsTruthyOpt st <;> cases h3 : jsTruthy (jsTrim p.location) <;>
        cases h4 : rgNamePatternTest (jsTrim p.resourceGroupName) <;>
          simp +decide [h1, h2, h3, h4, h5, h6]

/-- Helper: the real-time field validator accepts exactly the strings whose
trimmed value passes the charset-and-length acceptance test. -/
theorem rg_field_validator_accepts_trimmed (s : String) :
    validateResourceGroupName s = .valid ↔ rgNameAccepted s = true := by
  unfold validateResourceGroupName rgNameAccepted
  by_cases h1 : jsTrim s = ""
  · have h4 : rgNamePatternTest (jsTrim s) = false := by rw [h1]; rfl
    simp +decide [h1, h4]
  · by_cases h2 : rgNamePatternTest (jsTrim s) = true
    · by_cases h5 : jsLength (jsTrim s) > 90
      · have h6 : ¬ jsLength (jsTrim s) ≤ 90 := Nat.not_le.mpr h5
        simp [h1, h2, h5, h6]
      · have h6 : jsLength (jsTrim s) ≤ 90 := Nat.not_lt.mp h5
        simp [h1, h2, h5, h6]
    · simp +decide [h1, h2, Bool.not_eq_true _ ▸ h2]

/-- Claim C1 (counterexample): the claim says any name containing a character
outside `[A-Za-z0-9._-]` must produce a resource-group error, but the code
validates the *trimmed* name: for the input `" a"` (which contains a space)
neither `validateDeploymentParameters` nor `validateResourceGroupName`
reports any error. -/
theorem rg_validation_space_counterexample :
    (" a").data.all isAllowedRGChar = false ∧
    jsLength " a" ≥ 1 ∧ jsLength " a" ≤ 90 ∧
    validateDeploymentParameters (some "vm")
      { resourceGroupName := " a", location := "eastus" } = [] ∧
    validateResourceGroupName " a" = .valid := by
  refine ⟨by decide, by decide, by decide, by decide, by decide⟩

/-- Claim C1 (amended): resource-group validation accepts a string exactly
when its *trimmed* value consists only of `[A-Za-z0-9._-]` and has length
between 1 and 90; `validateDeploymentParameters` adds a resource-group error
precisely when the trimmed value is empty, longer than 90 characters, or
contains any other character, and the field validator
`validateResourceGroupName` accepts under the same condition. -/
theorem rg_validation_trimmed_charset (st : Option String) (p : CollectedParams) :
    (hasResourceGroupError (validateDeploymentParameters st p)
        = !rgNameAccepted p.resourceGroupName)
    ∧ (validateResourceGroupName p.resourceGroupName = .valid
        ↔ rgNameAccepted p.resourceGroupName = true) :=
  ⟨rg_validation_accepts_trimmed st p,
   rg_field_validator_accepts_trimmed p.resourceGroupName⟩

/-- Claim C2: with a template selected, an all-whitespace resource-group name
and an all-whitespace location, `validateDeploymentParameters` returns exactly
the two required-field errors, and `deployTemplate` stops with those errors
before building the payload or issuing the `/deploy` fetch. -/
theorem deploy_empty_fields_two_errors_no_fetch (t : String) (p : CollectedParams)
    (ht : jsTruthy t = true)
    (hrg : jsTrim p.resourceGroupName = "")
    (hloc : jsTrim p.location = "") :
    validateDeploymentParameters (some t) p = [msgRGRequired, msgLocationRequired]
    ∧ (validateDeploymentParameters (some t) p).length = 2
    ∧ deployTemplate (some t) p
        = .validationError [msgRGRequired, msgLocationRequired] := by
  have ht' : ¬ t = "" := by simpa [jsTruthy] using ht
  have hv : validateDeploymentParameters (some t) p
      = [msgRGRequired, msgLocationRequired] := by
    unfold validateDeploymentParameters
    simp [hrg, hloc, jsTruthyOpt, jsTruthy, ht']
  refine ⟨hv, by rw [hv]; rfl, ?_⟩
  unfold deployTemplate
  rw [hv]
  rfl

/-- Claim C2 witness: concrete evaluation at a whitespace-only resource group
name and an empty location with template `"vm"` selected. -/
theorem deploy_empty_fields_two_errors_no_fetch_witness :
    validateDeploymentParameters (some "vm")
        { resourceGroupName := " ", location := "" }
      = [msgRGRequired, msgLocationRequired]
    ∧ (validateDeploymentParameters (some "vm")
        { resourceGroupName := " ", location := "" }).length = 2
    ∧ deployTemplate (some "vm") { resourceGroupName := " ", location := "" }
        = .validationError [msgRGRequired, msgLocationRequired] :=
  deploy_empty_fields_two_errors_no_fetch "vm"
    { resourceGroupName := " ", location := "" }
    (by decide) (by decide) (by decide)


/-! ## Deployment log viewer filtering (React frontend, `DeploymentLogViewer`) -/

/-- A log entry as stored in the `logs` state of `DeploymentLogViewer`. -/
structure LogEntry where
  timestamp : String
  level : String
  phase : String
  message : String
  details : Option String
deriving DecidableEq

/-- The level-filter dimension: `ALL` passes everything, otherwise keep
entries whose `level` equals the filter. -/
def filterByLevel (levelFilter : String) (logs : List LogEntry) : List LogEntry :=
  if levelFilter = "ALL" then logs
  else logs.filter (fun log => log.level == levelFilter)

/-- The phase-filter dimension: `ALL` passes everything, otherwise keep
entries whose upper-cased `phase` equals the filter. -/
def filterByPhase (phaseFilter : String) (logs : List LogEntry) : List LogEntry :=
  if phaseFilter = "ALL" then logs
  else logs.filter (fun log => log.phase.toUpper == phaseFilter)

/-- Predicate of the free-text search: the lower-cased query occurs in the
lower-cased message, level or phase. -/
def matchesSearch (query : String) (log : LogEntry) : Bool :=
  jsIncludes log.message.toLower query ||
  jsIncludes log.level.toLower query ||
  jsIncludes log.phase.toLower query

/-- The search-filter dimension: an empty (falsy) query passes everything,
otherwise keep matching entries. -/
def filterBySearch (searchQuery : String) (logs : List LogEntry) : List LogEntry :=
  if jsTruthy searchQuery then logs.filter (matchesSearch searchQuery.toLower)
  else logs

/-- The filtering effect of `DeploymentLogViewer`: level, then phase, then
search, exactly as in the source. -/
def applyLogFilters (levelFilter phaseFilter searchQuery : String)
    (logs : List LogEntry) : List LogEntry :=
  filterBySearch searchQuery (filterByPhase phaseFilter (filterByLevel levelFilter logs))

theorem filterByLevel_phase_comm (lf pf : String) (l : List LogEntry) :
    filterByLevel lf (filterByPhase pf l) = filterByPhase pf (filterByLevel lf l) := by
  unfold filterByLevel filterByPhase
  split_ifs <;> simp [List.filter_filter, Bool.and_comm]

theorem filterByLevel_search_comm (lf q : String) (l : List LogEntry) :
    filterByLevel lf (filterBySearch q l) = filterBySearch q (filterByLevel lf l) := by
  unfold filterByLevel filterBySearch
  split_ifs <;> simp [List.filter_filter, Bool.and_comm]

theorem filterByPhase_search_comm (pf q : String) (l : List LogEntry) :
    filterByPhase pf (filterBySearch q l) = filterBySearch q (filterByPhase pf l) := by
  unfold filterByPhase filterBySearch
  split_ifs <;> simp [List.filter_filter, Bool.and_comm]

theorem filterByLevel_idem (lf : String) (l : List LogEntry) :
    filterByLevel lf (filterByLevel lf l) = filterByLevel lf l := by
  unfold filterByLevel
  split_ifs <;> simp [List.filter_filter]

theorem filterByPhase_idem (pf : String) (l : List LogEntry) :
    filterByPhase pf (filterByPhase pf l) = filterByPhase pf l := by
  unfold filterByPhase
  split_ifs <;> simp [List.filter_filter]

theorem filterBySearch_idem (q : String) (l : List LogEntry) :
    filterBySearch q (filterBySearch q l) = filterBySearch q l := by
  unfold filterBySearch
  split_ifs <;> simp [List.filter_filter]

theorem applyLogFilters_sublist (lf pf q : String) (l : List LogEntry) :
    (applyLogFilters lf pf q l).Sublist l := by
  unfold applyLogFilters filterByLevel filterByPhase filterBySearch
  split_ifs <;>
    first
    | exact List.Sublist.refl _
    | exact List.filter_sublist _
    | exact (List.filter_sublist _).trans (List.filter_sublist _)
    | exact ((List.filter_sublist _).trans (List.filter_sublist _)).trans (List.filter_sublist _)

/-- Claim C3: log filtering is a pure projection of the accumulated log list:
the result is a sublist of the input (the list itself is never mutated), the
three filter dimensions commute pairwise (hence any order yields the same
result), and each dimension is idempotent. -/
theorem log_filtering_pure_commutative_idempotent
    (lf pf q : String) (logs : List LogEntry) :
    (applyLogFilters lf pf q logs).Sublist logs
    ∧ applyLogFilters lf pf q logs
        = filterByLevel lf (filterByPhase pf (filterBySearch q logs))
    ∧ filterByLevel lf (filterByPhase pf logs) = filterByPhase pf (filterByLevel lf logs)
    ∧ filterByLevel lf (filterBySearch q logs) = filterBySearch q (filterByLevel lf logs)
    ∧ filterByPhase pf (filterBySearch q logs) = filterBySearch q (filterByPhase pf logs)
    ∧ filterByLevel lf (filterByLevel lf logs) = filterByLevel lf logs
    ∧ filterByPhase pf (filterByPhase pf logs) = filterByPhase pf logs
    ∧ filterBySearch q (filterBySearch q logs) = filterBySearch q logs := by
  refine ⟨applyLogFilters_sublist lf pf q logs, ?_,
    filterByLevel_phase_comm lf pf logs,
    filterByLevel_search_comm lf q logs,
    filterByPhase_search_comm pf q logs,
    filterByLevel_idem lf logs,
    filterByPhase_idem pf logs,
    filterBySearch_idem q logs⟩
  unfold applyLogFilters
  rw [← filterByPhase_search_comm, ← filterByLevel_search_comm,
    ← filterByLevel_phase_comm]



/-! ## Cascading dropdowns (legacy frontend, `utils.js`)

The three Azure-Portal-style option tables and the update functions that
recompute the child dropdowns when a parent dropdown changes.  A DOM
`<select>` is modelled by its option list and current value: replacing its
options (`innerHTML = ...`) makes the first new option the selected value,
and assigning `value` only sticks when the value is among the options.
-/

structure AppServicePlan where
  os : String
  tier : String
  sku : String
deriving DecidableEq

def APP_SERVICE_PLANS : List AppServicePlan :=
  [ { os := "Windows", tier := "Free", sku := "F1" },
    { os := "Windows", tier := "Basic", sku := "B1" },
    { os := "Windows", tier := "Standard", sku := "S1" },
    { os := "Windows", tier := "PremiumV2", sku := "P1v2" },
    { os := "Linux", tier := "Basic", sku := "B1" },
    { os := "Linux", tier := "Standard", sku := "S1" },
    { os := "Linux", tier := "PremiumV3", sku := "P1v3" } ]

structure SqlEdition where
  edition : String
  compute : String
  version : String
deriving DecidableEq

def SQL_EDITIONS : List SqlEdition :=
  [ { edition := "Basic", compute := "5 DTUs", version := "12.0" },
    { edition := "Standard", compute := "S0", version := "12.0" },
    { edition := "Standard", compute := "S1", version := "12.0" },
    { edition := "Premium", compute := "P1", version := "12.0" },
    { edition := "Premium", compute := "P2", version := "12.0" },
    { edition := "GeneralPurpose", compute := "Gen5", version := "12.0" },
    { edition := "BusinessCritical", compute := "Gen5", version := "12.0" } ]

structure StorageAccount where
  kind : String
  replication : String
  performance : String
deriving DecidableEq

def STORAGE_ACCOUNTS : List StorageAccount :=
  [ { kind := "StorageV2", replication := "LRS", performance := "Standard" },
    { kind := "StorageV2", replication := "GRS", performance := "Standard" },
    { kind := "StorageV2", replication := "ZRS", performance := "Standard" },
    { kind := "StorageV2", replication := "LRS", performance := "Premium" },
    { kind := "BlobStorage", replication := "LRS", performance := "Standard" },
    { kind := "FileStorage", replication := "LRS", performance := "Premium" } ]

/-- A DOM `<select>` element: its option values and its current value. -/
structure SelectState where
  options : List String
  value : String
deriving DecidableEq

/-- `select.innerHTML = options.map(o => `<option ...>`).join('')`:
the first option becomes the selected value (or `""` when empty). -/
def setSelectOptions (opts : List String) : SelectState :=
  { options := opts, value := opts.headD "" }

/-- `select.value = v`: sticks only when `v` is among the options, otherwise
the selection becomes empty. -/
def setSelectValue (s : SelectState) (v : String) : SelectState :=
  if v ∈ s.options then { s with value := v } else { s with value := "" }

/-- Helper for `dedupFirst`: drop elements already seen. -/
def dedupFirstAux (seen : List String) : List String → List String
  | [] => []
  | x :: xs => if x ∈ seen then dedupFirstAux seen xs else x :: dedupFirstAux (x :: seen) xs

/-- `[...new Set(xs)]`: deduplication keeping first occurrences. -/
def dedupFirst (l : List String) : List String := dedupFirstAux [] l

/-- `updateAppServicePlanDropdowns()` as a function of the OS dropdown's
current value, returning the rebuilt tier and SKU dropdowns. -/
def updateAppServicePlanDropdowns (osValue : String) : SelectState × SelectState :=
  let filteredByOs := APP_SERVICE_PLANS.filter (fun x => x.os == osValue)
  let tiers := dedupFirst (filteredByOs.map (fun x => x.tier))
  let tierSelect := setSelectOptions tiers
  let selectedTier := if jsTruthy tierSelect.value then tierSelect.value else tiers.headD ""
  let filteredByTier := filteredByOs.filter (fun x => x.tier == selectedTier)
  let skus := dedupFirst (filteredByTier.map (fun x => x.sku))
  let skuSelect := setSelectOptions skus
  (setSelectValue tierSelect selectedTier, setSelectValue skuSelect (skus.headD ""))

/-- `updateSqlDropdowns()` as a function of the edition dropdown's current
value, returning the rebuilt compute and version dropdowns. -/
def updateSqlDropdowns (editionValue : String) : SelectState × SelectState :=
  let filteredByEdition := SQL_EDITIONS.filter (fun x => x.edition == editionValue)
  let computes := dedupFirst (filteredByEdition.map (fun x => x.compute))
  let computeSelect := setSelectOptions computes
  let selectedCompute := if jsTruthy computeSelect.value then computeSelect.value else computes.headD ""
  let filteredByCompute := filteredByEdition.filter (fun x => x.compute == selectedCompute)
  let versions := dedupFirst (filteredByCompute.map (fun x => x.version))
  let versionSelect := setSelectOptions versions
  (setSelectValue computeSelect selectedCompute, setSelectValue versionSelect (versions.headD ""))

/-- `updateStorageDropdowns()` as a function of the kind dropdown's current
value, returning the rebuilt replication and performance dropdowns. -/
def updateStorageDropdowns (kindValue : String) : SelectState × SelectState :=
  let filteredByKind := STORAGE_ACCOUNTS.filter (fun x => x.kind == kindValue)
  let replications := dedupFirst (filteredByKind.map (fun x => x.replication))
  let replicationSelect := setSelectOptions replications
  let selectedReplication := if jsTruthy replicationSelect.value then replicationSelect.value else replications.headD ""
  let filteredByReplication := filteredByKind.filter (fun x => x.replication == selectedReplication)
  let performances := dedupFirst (filteredByReplication.map (fun x => x.performance))
  let performanceSelect := setSelectOptions performances
  (setSelectValue replicationSelect selectedReplication, setSelectValue performanceSelect (performances.headD ""))

/-- The cascade invariant for one update result: both child selections are
members of their recomputed option sets and the furthest downstream child is
reset to the first value of its new option set. -/
def cascadeInvariant (children : SelectState × SelectState) : Prop :=
  children.1.value ∈ children.1.options
  ∧ children.2.value ∈ children.2.options
  ∧ children.2.value = children.2.options.headD ""
  ∧ children.2.options ≠ []

instance (c : SelectState × SelectState) : Decidable (cascadeInvariant c) := by
  unfold cascadeInvariant; infer_instance

/-- Claim C4: for each of the three cascades, when the parent value is one of
the values occurring in the option table, the rebuilt child dropdowns satisfy
the cascade invariant: each child's selection is a member of its recomputed
allowed-value set and the furthest downstream selection is the first value of
its new set. -/
theorem cascade_children_consistent (os edition kind : String)
    (hos : os ∈ APP_SERVICE_PLANS.map (fun x => x.os))
    (hed : edition ∈ SQL_EDITIONS.map (fun x => x.edition))
    (hk : kind ∈ STORAGE_ACCOUNTS.map (fun x => x.kind)) :
    cascadeInvariant (updateAppServicePlanDropdowns os)
    ∧ cascadeInvariant (updateSqlDropdowns edition)
    ∧ cascadeInvariant (updateStorageDropdowns kind) := by
  refine ⟨?_, ?_, ?_⟩
  · simp only [APP_SERVICE_PLANS, List.map, List.mem_cons, List.not_mem_nil, or_false] at hos
    rcases hos with h | h | h | h | h | h | h <;> subst h <;> decide
  · simp only [SQL_EDITIONS, List.map, List.mem_cons, List.not_mem_nil, or_false] at hed
    rcases hed with h | h | h | h | h | h | h <;> subst h <;> decide
  · simp only [STORAGE_ACCOUNTS, List.map, List.mem_cons, List.not_mem_nil, or_false] at hk
    rcases hk with h | h | h | h | h | h <;> subst h <;> decide

/-- Claim C4 witness: concrete instantiation at OS `Linux`, SQL edition
`Standard` and storage kind `StorageV2`. -/
theorem cascade_children_consistent_witness :
    cascadeInvariant (updateAppServicePlanDropdowns "Linux")
    ∧ cascadeInvariant (updateSqlDropdowns "Standard")
    ∧ cascadeInvariant (updateStorageDropdowns "StorageV2") :=
  cascade_children_consistent "Linux" "Standard" "StorageV2"
    (by decide) (by decide) (by decide)



/-! ## `handleDeploy` payload construction (React frontend, `Deploy` page)

The source maps the logical cloud provider to a backend provider type,
resolves the resource group and location from several possible form fields,
substitutes `'default'` for a missing resource group on GCP, and includes a
`subscription_id` key only when a custom credential is stored in settings.
-/

/-- The stored `cloudCredentials` settings object.  Absent sub-objects or
fields are `none` (the source accesses them with optional chaining). -/
structure CloudCredentialSettings where
  azureMode : Option String := none
  azureSubscriptionId : Option String := none
  gcpMode : Option String := none
  gcpProjectId : Option String := none
deriving DecidableEq

/-- Form fields destructured from `formData` in `handleDeploy`; a field the
form did not supply is `none`. -/
structure HandleDeployForm where
  subscription_id : Option String := none
  project_id : Option String := none
  resource_group : Option String := none
  resource_group_name : Option String := none
  location : Option String := none
  region : Option String := none
  zone : Option String := none
deriving DecidableEq

/-- The payload posted to `/deploy` by `handleDeploy`.  `subscription_id` is
`none` when the key is omitted from the payload object. -/
structure DeployPayload where
  provider_type : String
  template_name : String
  subscription_id : Option String
  resource_group : String
  location : String
deriving DecidableEq

/-- `providerTypeMap[cloud_provider] || cloud_provider`. -/
def providerTypeMap (cloudProvider : String) : String :=
  if cloudProvider = "azure" then "terraform-azure"
  else if cloudProvider = "gcp" then "terraform-gcp"
  else cloudProvider

/-- The `customSubscriptionId` computed from saved settings: the Azure
subscription when the provider type mentions azure and the Azure mode is
`custom`, else the GCP project when the provider type mentions gcp and the
GCP mode is `custom`; `none` when no settings are stored (or parsing the
stored JSON failed). -/
def computeCustomSubscriptionId (providerType : String)
    (savedSettings : Option CloudCredentialSettings) : Option String :=
  match savedSettings with
  | none => none
  | some settings =>
    if jsIncludes providerType "azure" && settings.azureMode == some "custom" then
      settings.azureSubscriptionId
    else if jsIncludes providerType "gcp" && settings.gcpMode == some "custom" then
      settings.gcpProjectId
    else none

/-- The `subscription_id` field of the payload: the spread
`...(customSubscriptionId && ...)` adds the key only when the custom
credential is truthy. -/
def payloadSubscriptionId (providerType : String)
    (savedSettings : Option CloudCredentialSettings) : Option String :=
  match computeCustomSubscriptionId providerType savedSettings with
  | some x => if jsTruthy x then some x else none
  | none => none

/-- `coreResourceGroup`: `resource_group || resource_group_name || ''`,
replaced by `'default'` when falsy and the provider type mentions gcp. -/
def coreResourceGroupOf (resource_group resource_group_name : Option String)
    (providerType : String) : String :=
  let rg := jsOrStr resource_group (jsOrStr resource_group_name "")
  if !jsTruthy rg && jsIncludes providerType "gcp" then "default" else rg

/-- The payload built by `handleDeploy` (template parameters aside). -/
def handleDeployPayload (cloudProvider templateName : String)
    (fd : HandleDeployForm)
    (savedSettings : Option CloudCredentialSettings) : DeployPayload :=
  let providerType := providerTypeMap cloudProvider
  { provider_type := providerType
    template_name := templateName
    subscription_id := payloadSubscriptionId providerType savedSettings
    resource_group := coreResourceGroupOf fd.resource_group fd.resource_group_name providerType
    location := jsOrStr fd.location (jsOrStr fd.region (jsOrStr fd.zone "")) }

/-- Claim C5: credential precedence in `handleDeploy`.  For the Azure
provider, a stored custom Azure subscription id is sent as the payload's
`subscription_id`; for the GCP provider, a stored custom GCP project id is;
in every other situation (no stored settings, non-custom mode, or a missing
custom id) the payload carries no `subscription_id` key. -/
theorem handleDeploy_credential_precedence (tn : String) (fd : HandleDeployForm)
    (s : CloudCredentialSettings) :
    (∀ x, s.azureMode = some "custom" → s.azureSubscriptionId = some x → x ≠ "" →
      (handleDeployPayload "azure" tn fd (some s)).subscription_id = some x)
    ∧ (s.azureMode ≠ some "custom" →
      (handleDeployPayload "azure" tn fd (some s)).subscription_id = none)
    ∧ (s.azureSubscriptionId = none →
      (handleDeployPayload "azure" tn fd (some s)).subscription_id = none)
    ∧ (∀ x, s.gcpMode = some "custom" → s.gcpProjectId = some x → x ≠ "" →
      (handleDeployPayload "gcp" tn fd (some s)).subscription_id = some x)
    ∧ (s.gcpMode ≠ some "custom" →
      (handleDeployPayload "gcp" tn fd (some s)).subscription_id = none)
    ∧ (s.gcpProjectId = none →
      (handleDeployPayload "gcp" tn fd (some s)).subscription_id = none)
    ∧ (∀ p, (handleDeployPayload p tn fd none).subscription_id = none) := by
  have hza : jsIncludes "terraform-azure" "azure" = true := by decide
  have hzg : jsIncludes "terraform-azure" "gcp" = false := by decide
  have hga : jsIncludes "terraform-gcp" "azure" = false := by decide
  have hgg : jsIncludes "terraform-gcp" "gcp" = true := by decide
  refine ⟨?_, ?_, ?_, ?_, ?_, ?_, ?_⟩
  · intro x hm hid hx
    simp [handleDeployPayload, providerTypeMap, payloadSubscriptionId,
      computeCustomSubscriptionId, hza, hm, hid, jsTruthy, hx]
  · intro hm
    simp [handleDeployPayload, providerTypeMap, payloadSubscriptionId,
      computeCustomSubscriptionId, hza, hzg, hm]
  · intro hid
    by_cases hm : s.azureMode = some "custom" <;>
      simp [handleDeployPayload, providerTypeMap, payloadSubscriptionId,
        computeCustomSubscriptionId, hza, hzg, hm, hid]
  · intro x hm hid hx
    simp [handleDeployPayload, providerTypeMap, payloadSubscriptionId,
      computeCustomSubscriptionId, hga, hgg, hm, hid, jsTruthy, hx]
  · intro hm
    simp [handleDeployPayload, providerTypeMap, payloadSubscriptionId,
      computeCustomSubscriptionId, hga, hgg, hm]
  · intro hid
    by_cases hm : s.gcpMode = some "custom" <;>
      simp [handleDeployPayload, providerTypeMap, payloadSubscriptionId,
        computeCustomSubscriptionId, hga, hgg, hm, hid]
  · intro p
    simp [handleDeployPayload, payloadSubscriptionId, computeCustomSubscriptionId]

/-- Claim C5 witness: a stored custom Azure subscription is sent for the
Azure provider, and with no stored settings the key is omitted. -/
theorem handleDeploy_credential_precedence_witness :
    (handleDeployPayload "azure" "vm" ⟨none, none, none, none, none, none, none⟩
      (some { azureMode := some "custom",
              azureSubscriptionId := some "sub-123" })).subscription_id = some "sub-123" :=
  (handleDeploy_credential_precedence "vm" ⟨none, none, none, none, none, none, none⟩
    { azureMode := some "custom", azureSubscriptionId := some "sub-123" }).1
    "sub-123" rfl rfl (by decide)

/-- Claim C9: when the provider type mentions gcp and the form supplies
neither `resource_group` nor `resource_group_name`, the submitted
`resource_group` is `'default'`; for a provider type not mentioning gcp the
empty string is submitted unchanged. -/
theorem handleDeploy_gcp_default_resource_group (tn : String)
    (saved : Option CloudCredentialSettings) (fd : HandleDeployForm)
    (hrg : fd.resource_group = none) (hrgn : fd.resource_group_name = none) :
    (handleDeployPayload "gcp" tn fd saved).resource_group = "default"
    ∧ (handleDeployPayload "azure" tn fd saved).resource_group = "" := by
  constructor
  · simp [handleDeployPayload, providerTypeMap, coreResourceGroupOf, hrg, hrgn,
      jsOrStr, jsTruthy]
    decide
  · simp [handleDeployPayload, providerTypeMap, coreResourceGroupOf, hrg, hrgn,
      jsOrStr, jsTruthy]
    decide

/-- Claim C9 witness: concrete evaluation with an empty form. -/
theorem handleDeploy_gcp_default_resource_group_witness :
    (handleDeployPayload "gcp" "vm" ⟨none, none, none, none, none, none, none⟩ none).resource_group
        = "default"
    ∧ (handleDeployPayload "azure" "vm" ⟨none, none, none, none, none, none, none⟩ none).resource_group
        = "" :=
  handleDeploy_gcp_default_resource_group "vm" none
    ⟨none, none, none, none, none, none, none⟩ rfl rfl



/-! ## Role permissions (React frontend, `UserManagement`) -/

/-- `getRolePermissions(role)`: lookup in the fixed permissions object with
`|| []` for unknown roles. -/
def getRolePermissions (role : String) : List String :=
  if role = "admin" then ["read", "write", "delete", "manage_users"]
  else if role = "user" then ["read", "write"]
  else if role = "viewer" then ["read"]
  else []

/-- Claim C6: `getRolePermissions` is a pure function of the role value (it
is defined as a function of `role` alone); the permission sets are nested
(viewer ⊆ user ⊆ admin) and any role outside the three known ones yields the
empty permission set. -/
theorem role_permissions_nested (role : String)
    (hrole : role ∉ ["admin", "user", "viewer"]) :
    getRolePermissions "viewer" ⊆ getRolePermissions "user"
    ∧ getRolePermissions "user" ⊆ getRolePermissions "admin"
    ∧ getRolePermissions role = [] := by
  refine ⟨by decide, by decide, ?_⟩
  simp only [List.mem_cons, List.not_mem_nil, or_false, not_or] at hrole
  obtain ⟨h1, h2, h3⟩ := hrole
  simp [getRolePermissions, h1, h2, h3]

/-- Claim C6 witness: concrete evaluation at the unknown role `guest`. -/
theorem role_permissions_nested_witness :
    getRolePermissions "viewer" ⊆ getRolePermissions "user"
    ∧ getRolePermissions "user" ⊆ getRolePermissions "admin"
    ∧ getRolePermissions "guest" = [] :=
  role_permissions_nested "guest" (by decide)

/-! ## Parameter collection from the modal form (legacy frontend,
`collectParameters` and `showTemplateParameters`)

`showTemplateParameters` renders a multi-line JSON textarea for parameters of
type `array`, and for parameters of type `object` or named `tags`.  When
`collectParameters` later reads the form, only the input *named* `tags` is
JSON-parsed (with an empty-object fallback); every other input, whatever the
parameter's declared type, is collected as its raw string value.
-/

/-- The kind of control `showTemplateParameters` renders for a parameter. -/
inductive ParamControl where
  | enumDropdown : List String → ParamControl
  | checkbox : ParamControl
  | jsonTextarea : ParamControl
  | textInput : ParamControl
deriving DecidableEq

/-- The control chosen by `showTemplateParameters` from the parameter's
schema (`allowedValues`, `type`) and name. -/
def renderParameterControl (name : String) (allowedValues : List String)
    (ty : Option String) : ParamControl :=
  if !allowedValues.isEmpty then .enumDropdown allowedValues
  else if ty == some "bool" then .checkbox
  else if ty == some "array" then .jsonTextarea
  else if ty == some "object" || name == "tags" then .jsonTextarea
  else .textInput

/-- A value produced by `collectParameters` for one named input:
the raw string value, the empty-object fallback, or the object successfully
parsed (by `JSON.parse`) from the given text. -/
inductive CollectedValue where
  | str : String → CollectedValue
  | emptyObject : CollectedValue
  | parsedObject : String → CollectedValue
deriving DecidableEq

/-- `tagsValue.startsWith('\x7b') && tagsValue.endsWith('\x7d')`. -/
def looksLikeJsonObject (s : String) : Bool :=
  s.data.head? == some '\x7b' && s.data.getLast? == some '\x7d'

/-- The per-input collection logic of `collectParameters` for the modal form.
`jsonParseOk text` abstracts whether `JSON.parse(text)` succeeds (the
`catch` branch is taken when it does not). -/
def collectModalParameter (jsonParseOk : String → Bool)
    (name value : String) : CollectedValue :=
  if name = "tags" then
    let tagsValue := jsTrim value
    if jsTruthy tagsValue then
      if looksLikeJsonObject tagsValue then
        if jsonParseOk tagsValue then .parsedObject tagsValue else .emptyObject
      else .emptyObject
    else .emptyObject
  else if name ∈ ["imagePublisher", "imageOffer", "imageSku"] then .str value
  else .str value

/-- Claim C7 (counterexample): the parameter `subnets` of type `array` is
rendered as a JSON textarea, and the entered text `not json` fails to parse
as JSON — yet `collectParameters` yields the raw string `not json`, not the
empty array (it performs no JSON parsing for inputs not named `tags`). -/
theorem collect_array_param_no_fallback_counterexample :
    renderParameterControl "subnets" [] (some "array") = .jsonTextarea
    ∧ collectModalParameter (fun _ => false) "subnets" "not json"
        = .str "not json"
    ∧ CollectedValue.str "not json" ≠ .emptyObject := by
  refine ⟨rfl, rfl, by decide⟩

/-- Claim C7 (amended): only the input named `tags` has a parse-failure
fallback, and it falls back to the empty object; every input with any other
name — including array-typed and object-typed parameters — is collected as
its raw entered text with no JSON parsing at all. -/
theorem collect_tags_only_json_fallback (jsonParseOk : String → Bool)
    (name value : String) :
    (name ≠ "tags" → collectModalParameter jsonParseOk name value = .str value)
    ∧ (¬(looksLikeJsonObject (jsTrim value) = true ∧ jsonParseOk (jsTrim value) = true) →
        collectModalParameter jsonParseOk "tags" value = .emptyObject) := by
  constructor
  · intro hname
    unfold collectModalParameter
    rw [if_neg hname]
    by_cases hmem : name ∈ ["imagePublisher", "imageOffer", "imageSku"] <;>
      simp [hmem]
  · intro hfail
    unfold collectModalParameter
    simp only [if_pos rfl]
    by_cases h1 : jsTruthy (jsTrim value)
    · by_cases h2 : looksLikeJsonObject (jsTrim value)
      · have h3 : jsonParseOk (jsTrim value) = false := by
          cases h4 : jsonParseOk (jsTrim value)
          · rfl
          · exact absurd ⟨h2, h4⟩ hfail
        simp [h1, h2, h3]
      · simp [h1, h2]
    · simp [h1]

/-- Claim C7 witness (amended theorem): an array parameter text is collected
verbatim, and a tags text that is not brace-delimited collapses to the empty
object. -/
theorem collect_tags_only_json_fallback_witness :
    collectModalParameter (fun _ => false) "subnets" "[1, 2]" = .str "[1, 2]"
    ∧ collectModalParameter (fun _ => false) "tags" "not json" = .emptyObject :=
  ⟨(collect_tags_only_json_fallback (fun _ => false) "subnets" "[1, 2]").1 (by decide),
   (collect_tags_only_json_fallback (fun _ => false) "tags" "not json").2 (by decide)⟩



/-! ## SSE stream message handling (React frontend, `DeploymentLogViewer`) -/

/-- A parsed SSE event as received in `eventSource.onmessage`.  `level` and
`phase` may be absent; `timestamp`, `message` and `details` are copied into
the log entry verbatim. -/
structure StreamEvent where
  type : String
  timestamp : String
  level : Option String
  phase : Option String
  message : String
  details : Option String
deriving DecidableEq

/-- The effect of one `onmessage` call on the viewer's state. -/
inductive StreamEffect where
  | appendLog : LogEntry → StreamEffect
  | closeSource : StreamEffect
  | noEffect : StreamEffect
deriving DecidableEq

/-- The `onmessage` handler: a `log` event appends an entry (defaulting level
to `INFO` and phase to `unknown`), a `complete` or `done` event closes the
event source, anything else is ignored. -/
def onStreamMessage (data : StreamEvent) : StreamEffect :=
  if data.type = "log" then
    .appendLog
      { timestamp := data.timestamp
        level := jsOrStr data.level "INFO"
        phase := jsOrStr data.phase "unknown"
        message := data.message
        details := data.details }
  else if data.type = "complete" ∨ data.type = "done" then .closeSource
  else .noEffect

/-- Applying an effect to the accumulated log list
(`setLogs(prev => [...prev, entry])` for an append, unchanged otherwise). -/
def applyStreamEffect (logs : List LogEntry) : StreamEffect → List LogEntry
  | .appendLog e => logs ++ [e]
  | _ => logs

/-- Claim C10: a `log` event appends exactly one entry preserving the
event's timestamp, message and details, with level defaulting to `INFO` and
phase to `unknown` when absent; `complete` and `done` events append nothing
and close the event source. -/
theorem stream_log_event_append_defaults (ev : StreamEvent) (logs : List LogEntry) :
    (ev.type = "log" →
      onStreamMessage ev = .appendLog
        { timestamp := ev.timestamp
          level := jsOrStr ev.level "INFO"
          phase := jsOrStr ev.phase "unknown"
          message := ev.message
          details := ev.details }
      ∧ applyStreamEffect logs (onStreamMessage ev)
          = logs ++ [{ timestamp := ev.timestamp
                       level := jsOrStr ev.level "INFO"
                       phase := jsOrStr ev.phase "unknown"
                       message := ev.message
                       details := ev.details }]
      ∧ (ev.level = none → jsOrStr ev.level "INFO" = "INFO")
      ∧ (ev.phase = none → jsOrStr ev.phase "unknown" = "unknown")
      ∧ (∀ l, ev.level = some l → l ≠ "" → jsOrStr ev.level "INFO" = l)
      ∧ (∀ p, ev.phase = some p → p ≠ "" → jsOrStr ev.phase "unknown" = p))
    ∧ ((ev.type = "complete" ∨ ev.type = "done") →
      onStreamMessage ev = .closeSource
      ∧ applyStreamEffect logs (onStreamMessage ev) = logs) := by
  constructor
  · intro hlog
    refine ⟨?_, ?_, ?_, ?_, ?_, ?_⟩
    · simp [onStreamMessage, hlog]
    · simp [onStreamMessage, applyStreamEffect, hlog]
    · intro h; simp [jsOrStr, h]
    · intro h; simp [jsOrStr, h]
    · intro l h hne; simp [jsOrStr, h, hne]
    · intro p h hne; simp [jsOrStr, h, hne]
  · intro hdone
    have hne : ¬ ev.type = "log" := by
      rcases hdone with h | h <;> rw [h] <;> decide
    constructor
    · simp [onStreamMessage, hne, hdone]
    · simp [onStreamMessage, applyStreamEffect, hne, hdone]

/-- Claim C10 witness: a concrete `log` event with no level and no phase
appends an `INFO`/`unknown` entry, and a `complete` event closes the source
leaving the list unchanged. -/
theorem stream_log_event_append_defaults_witness :
    onStreamMessage
        { type := "log", timestamp := "t0", level := none, phase := none,
          message := "quota exceeded", details := none }
      = .appendLog
        { timestamp := "t0", level := "INFO", phase := "unknown",
          message := "quota exceeded", details := none }
    ∧ onStreamMessage
        { type := "complete", timestamp := "t1", level := none, phase := none,
          message := "", details := none }
      = .closeSource := by
  have h1 := (stream_log_event_append_defaults
    { type := "log", timestamp := "t0", level := none, phase := none,
      message := "quota exceeded", details := none } []).1 rfl
  have h2 := (stream_log_event_append_defaults
    { type := "complete", timestamp := "t1", level := none, phase := none,
      message := "", details := none } []).2 (Or.inl rfl)
  exact ⟨by simpa [jsOrStr] using h1.1, h2.1⟩



/-! ## Deployment status monitoring (legacy frontend, `monitorDeployment`)

`monitorDeployment` performs one status check immediately and then one per
30-second tick.  Each check fetches `/deployments/id/status`; a provisioning
state of `Succeeded` or `Failed` stops monitoring, any other outcome
increments `attempts`, and reaching `maxAttempts` stops with a timeout
warning.  Time is abstracted away: `statusAt k` is the result of the
`k`-th status check (0-indexed).
-/

/-- Result of one `fetch` of the status endpoint: a JSON body with a
provisioning state, a non-ok HTTP response, or a thrown network error. -/
inductive StatusResult where
  | ok : String → StatusResult
  | httpError : StatusResult
  | fetchError : StatusResult
deriving DecidableEq

/-- `const maxAttempts = 20`. -/
def maxAttempts : Nat := 20

/-- How a monitoring run ends, with the number of status checks performed:
success toast, failure toast, or the timeout warning. -/
inductive MonitorOutcome where
  | succeeded : Nat → MonitorOutcome
  | failed : Nat → MonitorOutcome
  | timedOut : Nat → MonitorOutcome
deriving DecidableEq

/-- Number of status checks recorded in an outcome. -/
def monitorChecks : MonitorOutcome → Nat
  | .succeeded n => n
  | .failed n => n
  | .timedOut n => n

/-- Does a status check see a terminal provisioning state? -/
def isTerminalStatus : StatusResult → Bool
  | .ok s => s == "Succeeded" || s == "Failed"
  | _ => false

/-- One `checkStatus()` call, where `attemptsAfter` is the value `attempts`
would take after this check: `some` outcome means monitoring stops, `none`
means it continues.  A terminal state stops before `attempts` is
incremented; every other path increments and compares against
`maxAttempts`. -/
def checkStatusStep (status : StatusResult) (attemptsAfter : Nat) :
    Option MonitorOutcome :=
  match status with
  | .ok s =>
    if s = "Succeeded" then some (.succeeded attemptsAfter)
    else if s = "Failed" then some (.failed attemptsAfter)
    else if attemptsAfter ≥ maxAttempts then some (.timedOut attemptsAfter)
    else none
  | _ =>
    if attemptsAfter ≥ maxAttempts then some (.timedOut attemptsAfter)
    else none

/-- The check loop of `monitorDeployment`, with `done` checks already
performed and fuel `r` (the loop needs no more than `maxAttempts` iterations;
the fuel keeps the recursion structural and is never exhausted when
`done + r = maxAttempts`). -/
def monitorAux (statusAt : Nat → StatusResult) : Nat → Nat → MonitorOutcome
  | 0, done => .timedOut done
  | r + 1, done =>
    match checkStatusStep (statusAt done) (done + 1) with
    | some outcome => outcome
    | none => monitorAux statusAt r (done + 1)

/-- `monitorDeployment`: initial check followed by interval checks until a
check stops the loop. -/
def monitorDeployment (statusAt : Nat → StatusResult) : MonitorOutcome :=
  monitorAux statusAt maxAttempts 0

theorem checkStatusStep_nonterminal (st : StatusResult) (n : Nat)
    (h : isTerminalStatus st = false) :
    checkStatusStep st n = if n ≥ maxAttempts then some (.timedOut n) else none := by
  cases st with
  | ok s =>
    simp only [isTerminalStatus, Bool.or_eq_false_iff, beq_eq_false_iff_ne, ne_eq] at h
    obtain ⟨h1, h2⟩ := h
    simp [checkStatusStep, h1, h2]
  | httpError => rfl
  | fetchError => rfl

theorem checkStatusStep_checks (st : StatusResult) (n : Nat) (o : MonitorOutcome)
    (h : checkStatusStep st n = some o) : monitorChecks o = n := by
  cases st <;> simp only [checkStatusStep] at h <;> split_ifs at h <;>
    (injection h with h2; subst h2; rfl)

theorem monitorAux_timeout (statusAt : Nat → StatusResult) :
    ∀ r done, done + r = maxAttempts →
      (∀ k, k < maxAttempts → isTerminalStatus (statusAt k) = false) →
      monitorAux statusAt r done = .timedOut maxAttempts := by
  intro r
  induction r with
  | zero =>
    intro done hd _
    have : done = maxAttempts := by omega
    simp [monitorAux, this]
  | succ r ih =>
    intro done hd hnt
    have hdone : done < maxAttempts := by omega
    have hstep := checkStatusStep_nonterminal (statusAt done) (done + 1)
      (hnt done hdone)
    unfold monitorAux
    rw [hstep]
    by_cases hge : done + 1 ≥ maxAttempts
    · have : r = 0 := by omega
      have hd1 : done + 1 = maxAttempts := by omega
      rw [if_pos hge, hd1]
    · rw [if_neg hge]
      exact ih (done + 1) (by omega) hnt

theorem monitorAux_terminal (statusAt : Nat → StatusResult) :
    ∀ r done k, done + r = maxAttempts → done ≤ k → k < maxAttempts →
      (∀ j, done ≤ j → j < k → isTerminalStatus (statusAt j) = false) →
      ((statusAt k = .ok "Succeeded" → monitorAux statusAt r done = .succeeded (k + 1))
       ∧ (statusAt k = .ok "Failed" → monitorAux statusAt r done = .failed (k + 1))) := by
  intro r
  induction r with
  | zero => intro done k hd hdk hk _; omega
  | succ r ih =>
    intro done k hd hdk hk hnt
    by_cases hdk2 : done = k
    · subst hdk2
      constructor
      · intro hs; unfold monitorAux; rw [hs]; rfl
      · intro hs; unfold monitorAux; rw [hs]; rfl
    · have hlt : done < k := lt_of_le_of_ne hdk hdk2
      have hterm := hnt done le_rfl hlt
      have hne : ¬ done + 1 ≥ maxAttempts := by omega
      have hstep := checkStatusStep_nonterminal (statusAt done) (done + 1) hterm
      unfold monitorAux
      rw [hstep, if_neg hne]
      exact ih (done + 1) k (by omega) (by omega) hk
        (fun j hj1 hj2 => hnt j (by omega) hj2)

theorem monitorAux_checks_le (statusAt : Nat → StatusResult) :
    ∀ r done, done + r = maxAttempts →
      monitorChecks (monitorAux statusAt r done) ≤ maxAttempts := by
  intro r
  induction r with
  | zero =>
    intro done hd
    simp [monitorAux, monitorChecks]
    omega
  | succ r ih =>
    intro done hd
    unfold monitorAux
    cases hstep : checkStatusStep (statusAt done) (done + 1) with
    | some outcome =>
      have := checkStatusStep_checks (statusAt done) (done + 1) outcome hstep
      simpa [this] using (by omega : done + 1 ≤ maxAttempts)
    | none => exact ih (done + 1) (by omega)

/-- Claim C8: `monitorDeployment` performs at most `maxAttempts = 20` status
checks.  When no check before the cap sees a terminal provisioning state,
monitoring stops after exactly 20 checks with the timeout warning; when the
first terminal state (`Succeeded` or `Failed`) is seen at some check, the
corresponding outcome stops monitoring at that check. -/
theorem monitor_deployment_capped_at_max_attempts (statusAt : Nat → StatusResult) :
    monitorChecks (monitorDeployment statusAt) ≤ maxAttempts
    ∧ ((∀ k, k < maxAttempts → isTerminalStatus (statusAt k) = false) →
        monitorDeployment statusAt = .timedOut maxAttempts)
    ∧ (∀ k, k < maxAttempts →
        (∀ j, j < k → isTerminalStatus (statusAt j) = false) →
        (statusAt k = .ok "Succeeded" → monitorDeployment statusAt = .succeeded (k + 1))
        ∧ (statusAt k = .ok "Failed" → monitorDeployment statusAt = .failed (k + 1))) := by
  refine ⟨monitorAux_checks_le statusAt maxAttempts 0 rfl, ?_, ?_⟩
  · intro h
    exact monitorAux_timeout statusAt maxAttempts 0 rfl h
  · intro k hk hnt
    exact monitorAux_terminal statusAt maxAttempts 0 k rfl (Nat.zero_le k) hk
      (fun j _ hj2 => hnt j hj2)

/-- Claim C8 witness: a status endpoint stuck on `Running` times out after
exactly 20 checks, and one that reports `Succeeded` on the third check stops
there. -/
theorem monitor_deployment_capped_at_max_attempts_witness :
    monitorDeployment (fun _ => .ok "Running") = .timedOut 20
    ∧ monitorDeployment
        (fun k => if k < 2 then .ok "Running" else .ok "Succeeded") = .succeeded 3 := by
  constructor
  · exact (monitor_deployment_capped_at_max_attempts (fun _ => .ok "Running")).2.1
      (by intro k _; rfl)
  · exact ((monitor_deployment_capped_at_max_attempts
      (fun k => if k < 2 then .ok "Running" else .ok "Succeeded")).2.2 2
      (by decide) (by intro j hj; interval_cases j <;> rfl)).1 (by rfl)


end Portal
